import Mathlib

/-!
Shallow embedding of `plugins/snake.py`: the `Snake` entity and the
`SnakePlugin` population manager, together with proofs of the spec's
claims about them.

Modelling conventions:
* Python ints are `Int` (arbitrary precision in both settings); counts of
  list elements are `Nat` coerced to `Int` where the source compares them
  with possibly-negative quantities.
* Times (`dt`, `time_to_move`, `move_interval`, `spawn_timer`,
  `message_timeout`) are exact rationals `ℚ`; the claims under study do
  not depend on floating-point rounding of times.
* Randomness (`random.random() < 0.3`, `random.choice`, `random.randint`)
  is passed in as explicit oracle arguments, one value per draw.
* The external `game` object is modelled by the `Game` structure holding
  exactly the fields the snake code reads or writes: the world origin
  (`world_x`, `world_y`), the consumed-resource store `spaces` (the md5
  key of a coordinate pair is a deterministic injective function of the
  pair, so the store is abstracted as the list of claimed coordinates,
  with `save_count` counting `save_spaces()` requests), and the message
  sink (`message`, `message_timeout`).
* `int(round ·))` is the identity here because world coordinates are
  modelled as integers already.
-/

namespace SnakeGame

/-- A position in the local coordinate frame: `(x, y)` integer pair. -/
abbrev Pos := Int × Int

/-- The slice of the external game object that `snake.py` touches. -/
structure Game where
  world_x : Int
  world_y : Int
  /-- Consumed world resources (`game.spaces`), abstracted to the claimed
  coordinates (the md5-hex key is a deterministic function of the pair). -/
  spaces : List Pos
  /-- Number of `game.save_spaces()` calls issued. -/
  save_count : Nat
  message : String
  message_timeout : ℚ
  deriving DecidableEq, Repr

/-- `Snake` state: mirrors `Snake.__init__` field for field. -/
structure Snake where
  x : Int
  y : Int
  length : Int
  max_length : Int
  body : List Pos
  direction : Pos
  time_to_move : ℚ
  move_interval : ℚ
  rattles : Int
  deriving DecidableEq, Repr

/-- `Snake.__init__(game, x, y)`: the initial direction is
`random.choice([(0,-1),(1,0),(0,1),(-1,0)])`, passed here as the oracle
value `dir`. -/
def Snake.init (x y : Int) (dir : Pos) : Snake :=
  { x := x
    y := y
    length := 3
    max_length := 15
    body := [(x, y)]
    direction := dir
    time_to_move := 0
    move_interval := 1/2
    rattles := 0 }

/-- The random draws one `Snake.update` tick may consume: whether
`random.random() < 0.3` fired, and the direction `random.choice` would
return. -/
structure SnakeRand where
  resample : Bool
  newDir : Pos
  deriving DecidableEq, Repr

/-- `location_id = (int_world_x + int_world_y * 1000) % 127`.  Lean's `%`
on `Int` and Python's `%` both return a value in `[0, 127)` here. -/
def locationId (wx wy : Int) : Int :=
  (wx + wy * 1000) % 127

/-- `chr(location_id) == '0'` (the egg marker) iff `location_id = 48`. -/
def isEggAt (wx wy : Int) : Bool :=
  locationId wx wy == 48

/-- `chr(location_id) == '@'` (the plant marker) iff `location_id = 64`. -/
def isPlantAt (wx wy : Int) : Bool :=
  locationId wx wy == 64

/-- The loop `while len(self.body) > self.length + self.rattles:
self.body.pop()`, with explicit fuel.  Each iteration pops the last
element, so the loop runs at most `len(body)` times; the fuel is
therefore not a semantic restriction (see `trimTail`).  Python raises
`IndexError` when popping an empty list (only reachable when
`target < 0`); the model stops instead. -/
def popWhile : Nat → List Pos → Int → List Pos
  | 0, body, _ => body
  | fuel + 1, body, target =>
    if (body.length : Int) > target ∧ body ≠ [] then
      popWhile fuel body.dropLast target
    else body

/-- The tail-trimming loop of `Snake.update`, fuelled by the initial
body length. -/
def trimTail (body : List Pos) (target : Int) : List Pos :=
  popWhile body.length body target

/-- `Snake.update(dt)`.  Returns the updated snake and game.  The egg
check and direction resampling follow the source line by line. -/
def Snake.update (s : Snake) (g : Game) (dt : ℚ) (r : SnakeRand) :
    Snake × Game :=
  let t := s.time_to_move - dt
  if t ≤ 0 then
    let dir := if r.resample then r.newDir else s.direction
    let head := s.body.headD (0, 0)
    let newHead : Pos := (head.1 + dir.1, head.2 + dir.2)
    let iwx := newHead.1 + g.world_x
    let iwy := newHead.2 + g.world_y
    let newLength :=
      if isEggAt iwx iwy then
        if s.length < s.max_length then s.length + 1 else s.length
      else s.length
    let g' :=
      if isEggAt iwx iwy then
        { g with spaces := (iwx, iwy) :: g.spaces
                 save_count := g.save_count + 1 }
      else g
    let body := trimTail (newHead :: s.body) (newLength + s.rattles)
    ({ s with time_to_move := s.move_interval
              direction := dir
              length := newLength
              body := body }, g')
  else
    ({ s with time_to_move := t }, g)

/-- Iterated `Snake.update`: one entry of `ticks` per call, carrying the
`dt` and the random draw of that tick. -/
def Snake.updates : Snake → Game → List (ℚ × SnakeRand) → Snake × Game
  | s, g, [] => (s, g)
  | s, g, tick :: rest =>
    let r := s.update g tick.1 tick.2
    Snake.updates r.1 r.2 rest

/-- `Snake.bite(other_snake)`.  Returns (updated biter, updated other,
updated game, the returned Bool). -/
def Snake.bite (s other : Snake) (g : Game) :
    Snake × Snake × Game × Bool :=
  let s' := { s with rattles := s.rattles + 2 }
  if other.body.length > 3 then
    let middle := other.body.length / 2
    let other' := { other with body := other.body.eraseIdx middle,
                               length := other.length - 1 }
    let g' := { g with
      message := "Snake bite! One snake lost a segment, another gained rattles."
      message_timeout := 2 }
    (s', other', g', true)
  else
    (s', other, g, false)

/-- `SnakePlugin` state.  `active` is modelled from the spec: the
`Plugin` base class (`plugins/base.py`) is not part of the supplied
source; per the spec it provides an externally-togglable enabled flag,
and `SnakePlugin.update` is a complete no-op while it is off. -/
structure SnakePlugin where
  active : Bool
  snakes : List Snake
  spawn_timer : ℚ
  spawn_interval : ℚ
  max_snakes : Nat
  deriving DecidableEq, Repr

/-- `SnakePlugin.__init__`: empty population, timer 0, interval 10s,
cap 5.  The base class activates the plugin (modelled from the spec). -/
def SnakePlugin.init : SnakePlugin :=
  { active := true
    snakes := []
    spawn_timer := 0
    spawn_interval := 10
    max_snakes := 5 }

/-- The `for snake in self.snakes: snake.update(dt)` loop, threading the
shared game state left to right; `rands idx` is the random draw consumed
by the snake at position `idx`. -/
def updateSnakes (dt : ℚ) (rands : Nat → SnakeRand) :
    List Snake → Game → Nat → List Snake × Game
  | [], g, _ => ([], g)
  | s :: rest, g, idx =>
    let r := s.update g dt (rands idx)
    let rest' := updateSnakes dt rands rest r.2 (idx + 1)
    (r.1 :: rest'.1, rest'.2)

/-- `snake1.bite(snake2)` applied inside the collision pass: entry `i`
is the attacker, entry `j` the target; both list entries are updated in
place (the source mutates the shared objects). -/
def doBite (snakes : List Snake) (g : Game) (i j : Nat) :
    List Snake × Game :=
  match snakes[i]?, snakes[j]? with
  | some s1, some s2 =>
    let r := s1.bite s2 g
    ((snakes.set i r.1).set j r.2.1, r.2.2.1)
  | _, _ => (snakes, g)

/-- One iteration of the inner `for j, snake2 in enumerate(self.snakes)`
loop of `check_snake_collisions`, for attacker `i` with head `head1`.
The innermost `for k, segment in enumerate(snake2.body[1:], 1)` loop
bites on the first matching segment and breaks; since the bite does not
depend on `k`, it fires exactly when `head1 ∈ snake2.body[1:]`. -/
def collideWith (i : Nat) (head1 : Pos) (st : List Snake × Game)
    (j : Nat) : List Snake × Game :=
  if i = j then st
  else
    match st.1[j]? with
    | none => st
    | some s2 =>
      if s2.body.length < 2 then st
      else if head1 ∈ s2.body.tail then doBite st.1 st.2 i j
      else st

/-- One iteration of the outer loop of `check_snake_collisions`: snake
`i` attacks each other snake in list order.  `head1` is captured once
before the inner loop, as in the source (`snake1.body` cannot change
during its own inner loop: a bite only mutates the target). -/
def collideAttacker (st : List Snake × Game) (i : Nat) :
    List Snake × Game :=
  match st.1[i]? with
  | none => st
  | some s1 =>
    if s1.body.length = 0 then st
    else
      let head1 := s1.body.headD (0, 0)
      (List.range st.1.length).foldl (collideWith i head1) st

/-- `SnakePlugin.check_snake_collisions`. -/
def checkSnakeCollisions (snakes : List Snake) (g : Game) :
    List Snake × Game :=
  (List.range snakes.length).foldl collideAttacker (snakes, g)

/-- The `for _ in range(10)` loop of `try_spawn_snake`: `offsets k` is
the pair `(random.randint(-10,10), random.randint(-10,10))` drawn on
trial `k`; returns the first offset (scanning `k, k+1, ...` while fuel
lasts) whose world coordinate carries the plant marker. -/
def findSpawnOffset (g : Game) (offsets : Nat → Pos) :
    Nat → Nat → Option Pos
  | _, 0 => none
  | k, fuel + 1 =>
    if isPlantAt (g.world_x + (offsets k).1) (g.world_y + (offsets k).2) then
      some (offsets k)
    else findSpawnOffset g offsets (k + 1) fuel

/-- `SnakePlugin.try_spawn_snake`.  `dir0` is the direction
`random.choice` hands the newly constructed snake. -/
def trySpawnSnake (p : SnakePlugin) (g : Game) (offsets : Nat → Pos)
    (dir0 : Pos) : SnakePlugin × Bool :=
  if p.snakes.length ≥ p.max_snakes then (p, false)
  else
    match findSpawnOffset g offsets 0 10 with
    | some o => ({ p with snakes := p.snakes ++ [Snake.init o.1 o.2 dir0] }, true)
    | none => (p, false)

/-- `SnakePlugin.update(dt)`: early return when inactive; otherwise
move every snake, run the collision pass, then tick the spawn timer and
attempt one spawn when it expires. -/
def SnakePlugin.update (p : SnakePlugin) (g : Game) (dt : ℚ)
    (rands : Nat → SnakeRand) (offsets : Nat → Pos) (dir0 : Pos) :
    SnakePlugin × Game :=
  if p.active then
    let moved := updateSnakes dt rands p.snakes g 0
    let collided := checkSnakeCollisions moved.1 moved.2
    let timer := p.spawn_timer - dt
    if timer ≤ 0 then
      let p' := { p with snakes := collided.1, spawn_timer := p.spawn_interval }
      ((trySpawnSnake p' collided.2 offsets dir0).1, collided.2)
    else
      ({ p with snakes := collided.1, spawn_timer := timer }, collided.2)
  else (p, g)

/-! ### Concrete inputs used by witnesses and counterexamples -/

/-- A game state whose origin is `(0, 0)`; the square probed by a snake
at `(0, 0)` moving to `(0, 1)` has `location_id = 111`, neither egg nor
plant. -/
def sampleGame : Game :=
  { world_x := 0
    world_y := 0
    spaces := []
    save_count := 0
    message := ""
    message_timeout := 0 }

/-- A snake with a 4-segment body, due to move (`time_to_move = 0`). -/
def snakeA : Snake :=
  { x := 0
    y := 0
    length := 4
    max_length := 15
    body := [(0, 0), (5, 5), (9, 9), (7, 7)]
    direction := (0, 1)
    time_to_move := 0
    move_interval := 1/2
    rattles := 0 }

/-- A second 4-segment snake; its head `(5, 5)` sits on `snakeA`'s body
segment 1, and `snakeA`'s head `(0, 0)` sits on its body segment 1. -/
def snakeB : Snake :=
  { x := 5
    y := 5
    length := 4
    max_length := 15
    body := [(5, 5), (0, 0), (3, 3), (4, 4)]
    direction := (0, 1)
    time_to_move := 0
    move_interval := 1/2
    rattles := 0 }

/-- A steady-state snake: 3 body segments, `length = 3`, `rattles = 0`. -/
def snakeC : Snake :=
  { x := 5
    y := 5
    length := 3
    max_length := 15
    body := [(5, 5), (5, 6), (5, 7)]
    direction := (0, -1)
    time_to_move := 0
    move_interval := 1/2
    rattles := 0 }

/-- The oracle draw where no direction resampling happens. -/
def noResample : SnakeRand :=
  { resample := false, newDir := (0, 0) }

/-- A plugin that has been disabled externally, as the spec allows. -/
def inactivePlugin : SnakePlugin :=
  { active := false
    snakes := [snakeC]
    spawn_timer := 0
    spawn_interval := 10
    max_snakes := 5 }

/-- A plugin already holding `max_snakes = 5` snakes. -/
def fullPlugin : SnakePlugin :=
  { active := true
    snakes := [snakeC, snakeC, snakeC, snakeC, snakeC]
    spawn_timer := 0
    spawn_interval := 10
    max_snakes := 5 }

/-! ### Lemmas about the tail-trimming loop -/

theorem popWhile_length_le (fuel : Nat) (body : List Pos) (t : Int) :
    (popWhile fuel body t).length ≤ body.length := by
  induction fuel generalizing body with
  | zero => simp [popWhile]
  | succ n ih =>
    unfold popWhile
    split
    · have h := ih body.dropLast
      have : body.dropLast.length = body.length - 1 := List.length_dropLast _
      omega
    · exact Nat.le_refl _

theorem popWhile_length (fuel : Nat) (body : List Pos) (t : Int)
    (hfuel : body.length ≤ fuel) :
    ((popWhile fuel body t).length : Int) =
      if (body.length : Int) ≤ t then (body.length : Int) else max t 0 := by
  induction fuel generalizing body with
  | zero =>
    have hb : body = [] := List.eq_nil_of_length_eq_zero (Nat.le_zero.mp hfuel)
    subst hb
    simp only [popWhile, List.length_nil, Nat.cast_zero]
    split <;> omega
  | succ n ih =>
    unfold popWhile
    split
    case isTrue h =>
      have hne : body ≠ [] := h.2
      have hpos : 0 < body.length := List.length_pos.mpr hne
      have hdl : body.dropLast.length = body.length - 1 := List.length_dropLast _
      rw [ih body.dropLast (by omega)]
      have hgt : (body.length : Int) > t := h.1
      have hcast : (body.dropLast.length : Int) = (body.length : Int) - 1 := by
        omega
      rw [hcast]
      split <;> split <;> omega
    case isFalse h =>
      rw [Decidable.not_and_iff_or_not] at h
      rcases h with h | h
      · have : (body.length : Int) ≤ t := by omega
        simp [this]
      · have hb : body = [] := Decidable.not_not.mp h
        subst hb
        simp only [List.length_nil, Nat.cast_zero]
        split <;> omega

theorem trimTail_length (body : List Pos) (t : Int) :
    ((trimTail body t).length : Int) =
      if (body.length : Int) ≤ t then (body.length : Int) else max t 0 :=
  popWhile_length _ _ _ (Nat.le_refl _)

theorem trimTail_length_le (body : List Pos) (t : Int) :
    (trimTail body t).length ≤ body.length :=
  popWhile_length_le _ _ _

/-- Removing a positive index leaves the head untouched. -/
theorem head?_eraseIdx_of_pos (l : List Pos) (n : Nat) (h : 0 < n) :
    (l.eraseIdx n).head? = l.head? := by
  cases l with
  | nil => simp
  | cons a tl =>
    cases n with
    | zero => omega
    | succ m => simp

/-- When `0 ≤ t ≤ len(body)`, the trimming loop lands exactly on `t`. -/
theorem trimTail_length_eq (body : List Pos) (t : Int)
    (h1 : 0 ≤ t) (h2 : t ≤ (body.length : Int)) :
    ((trimTail body t).length : Int) = t := by
  rw [trimTail_length]
  split <;> omega

/-- Removing a positive index leaves `headD` untouched. -/
theorem headD_eraseIdx_of_pos (l : List Pos) (n : Nat) (d : Pos)
    (h : 0 < n) : (l.eraseIdx n).headD d = l.headD d := by
  cases l with
  | nil => simp
  | cons a tl =>
    cases n with
    | zero => omega
    | succ m => simp

/-- A successful bite, written as one record equation (shared by the
single-bite and the collision-pass claims). -/
theorem bite_long (s other : Snake) (g : Game)
    (h : 3 < other.body.length) :
    s.bite other g =
      ({ s with rattles := s.rattles + 2 },
       { other with body := other.body.eraseIdx (other.body.length / 2),
                    length := other.length - 1 },
       { g with
         message := "Snake bite! One snake lost a segment, another gained rattles.",
         message_timeout := 2 },
       true) := by
  simp [Snake.bite, h]

/-! ### Claims about `Snake.bite` -/

/-- C2: biting a target whose body has more than 3 segments removes
exactly the segment at index `len(body) // 2`, decrements the target's
`length` by 1, adds 2 rattles to the biter, sets the game message with a
2-second timeout, and returns `True`. -/
theorem c2_bite_long_target (A B : Snake) (g : Game)
    (h : B.body.length > 3) :
    (A.bite B g).1 = { A with rattles := A.rattles + 2 } ∧
    (A.bite B g).2.1 =
      { B with body := B.body.eraseIdx (B.body.length / 2),
               length := B.length - 1 } ∧
    (A.bite B g).2.2.1 =
      { g with
        message := "Snake bite! One snake lost a segment, another gained rattles.",
        message_timeout := 2 } ∧
    (A.bite B g).2.2.2 = true := by
  simp [Snake.bite, h]

theorem c2_bite_long_target_witness :
    snakeB.body.length > 3 ∧
    ((snakeA.bite snakeB sampleGame).1 =
      { snakeA with rattles := snakeA.rattles + 2 } ∧
    (snakeA.bite snakeB sampleGame).2.1 =
      { snakeB with body := snakeB.body.eraseIdx (snakeB.body.length / 2),
                    length := snakeB.length - 1 } ∧
    (snakeA.bite snakeB sampleGame).2.2.1 =
      { sampleGame with
        message := "Snake bite! One snake lost a segment, another gained rattles.",
        message_timeout := 2 } ∧
    (snakeA.bite snakeB sampleGame).2.2.2 = true) :=
  ⟨by decide, c2_bite_long_target snakeA snakeB sampleGame (by decide)⟩

/-- C3: biting a target whose body has 3 or fewer segments leaves the
target and the game (message included) unchanged and returns `False`,
while the biter still gains 2 rattles. -/
theorem c3_bite_short_target (A B : Snake) (g : Game)
    (h : B.body.length ≤ 3) :
    (A.bite B g).1 = { A with rattles := A.rattles + 2 } ∧
    (A.bite B g).2.1 = B ∧
    (A.bite B g).2.2.1 = g ∧
    (A.bite B g).2.2.2 = false := by
  have h3 : ¬ B.body.length > 3 := by omega
  simp [Snake.bite, h3]

theorem c3_bite_short_target_witness :
    snakeC.body.length ≤ 3 ∧
    ((snakeA.bite snakeC sampleGame).1 =
      { snakeA with rattles := snakeA.rattles + 2 } ∧
    (snakeA.bite snakeC sampleGame).2.1 = snakeC ∧
    (snakeA.bite snakeC sampleGame).2.2.1 = sampleGame ∧
    (snakeA.bite snakeC sampleGame).2.2.2 = false) :=
  ⟨by decide, c3_bite_short_target snakeA snakeC sampleGame (by decide)⟩

/-- C9: when the target's body has more than 3 segments, the removal
index `len(body) // 2` is strictly between 0 and `len(body)`, so the
removal is in bounds (the body shrinks by exactly one) and never removes
the target's head. -/
theorem c9_bite_index_safe (A B : Snake) (g : Game)
    (h : 3 < B.body.length) :
    0 < B.body.length / 2 ∧
    B.body.length / 2 < B.body.length ∧
    (A.bite B g).2.1.body.length + 1 = B.body.length ∧
    (A.bite B g).2.1.body.head? = B.body.head? := by
  have h2 : 0 < B.body.length / 2 := by omega
  have hlt : B.body.length / 2 < B.body.length := by omega
  refine ⟨h2, hlt, ?_, ?_⟩
  · simp only [Snake.bite]
    rw [if_pos h]
    have := List.length_eraseIdx_of_lt hlt
    simp only [this]
    omega
  · simp only [Snake.bite]
    rw [if_pos h]
    exact head?_eraseIdx_of_pos _ _ h2

/-- One `update` tick keeps `length` at or below a cap of 15 and leaves
`max_length` untouched: the egg branch only grows when
`length < max_length`. -/
theorem update_length_cap (s : Snake) (g : Game) (dt : ℚ) (r : SnakeRand)
    (hmax : s.max_length = 15) (hlen : s.length ≤ 15) :
    (s.update g dt r).1.max_length = 15 ∧ (s.update g dt r).1.length ≤ 15 := by
  unfold Snake.update
  by_cases hmv : s.time_to_move - dt ≤ 0
  · simp only [hmv, if_true, if_pos]
    refine ⟨hmax, ?_⟩
    split_ifs <;> omega
  · rw [if_neg hmv]
    exact ⟨hmax, hlen⟩

/-- C4: starting from `length ≤ 15` with the constructed cap
`max_length = 15`, no sequence of `update` ticks (egg consumptions
included) ever drives `length` above 15. -/
theorem c4_growth_saturation (s : Snake) (g : Game)
    (ticks : List (ℚ × SnakeRand))
    (hmax : s.max_length = 15) (hlen : s.length ≤ 15) :
    (Snake.updates s g ticks).1.length ≤ 15 := by
  induction ticks generalizing s g with
  | nil => exact hlen
  | cons tick rest ih =>
    have h := update_length_cap s g tick.1 tick.2 hmax hlen
    simpa only [Snake.updates] using
      ih (s.update g tick.1 tick.2).1 (s.update g tick.1 tick.2).2 h.1 h.2

theorem c4_growth_saturation_witness :
    snakeC.max_length = 15 ∧ snakeC.length ≤ 15 ∧
    (Snake.updates snakeC sampleGame
      [(1, noResample), (1, noResample)]).1.length ≤ 15 :=
  ⟨by decide, by decide,
    c4_growth_saturation snakeC sampleGame [(1, noResample), (1, noResample)]
      (by decide) (by decide)⟩

/-- C1 (counterexample): a freshly constructed snake (1-segment body,
`length = 3`, `rattles = 0`) moves on its first `update` tick, yet ends
with a 2-segment body: `len(body) ≠ length + rattles` immediately after
that move, refuting the claim as stated. -/
theorem c1_counterexample :
    ((Snake.init 5 5 (0, 1)).update sampleGame 1 noResample).1.body
        = [(5, 6), (5, 5)] ∧
    ((Snake.init 5 5 (0, 1)).update sampleGame 1 noResample).1.length = 3 ∧
    ((Snake.init 5 5 (0, 1)).update sampleGame 1 noResample).1.rattles = 0 ∧
    ¬ ((((Snake.init 5 5 (0, 1)).update sampleGame 1 noResample).1.body.length : Int)
        = ((Snake.init 5 5 (0, 1)).update sampleGame 1 noResample).1.length
          + ((Snake.init 5 5 (0, 1)).update sampleGame 1 noResample).1.rattles) := by
  unfold Snake.update
  norm_num [Snake.init, noResample, sampleGame, isEggAt, locationId,
    trimTail, popWhile]

/-- C1 (amended): immediately after a move performed inside
`Snake.update`, `len(body) == length + rattles` holds provided the
invariant had already been reached before the move, i.e. the pre-move
body had at least `length + rattles` segments and `length + rattles`
was nonnegative. -/
theorem c1_move_length_invariant (s : Snake) (g : Game) (dt : ℚ)
    (r : SnakeRand)
    (hmove : s.time_to_move ≤ dt)
    (hpre : s.length + s.rattles ≤ (s.body.length : Int))
    (hnn : 0 ≤ s.length + s.rattles) :
    (((s.update g dt r).1.body.length : Int)
      = (s.update g dt r).1.length + (s.update g dt r).1.rattles) := by
  have hmv : s.time_to_move - dt ≤ 0 := sub_nonpos.mpr hmove
  unfold Snake.update
  simp only [hmv, if_true, if_pos]
  split_ifs <;>
    exact trimTail_length_eq _ _ (by omega)
      (by simp only [List.length_cons]; omega)

theorem c1_move_length_invariant_witness :
    snakeC.time_to_move ≤ (1 : ℚ) ∧
    snakeC.length + snakeC.rattles ≤ (snakeC.body.length : Int) ∧
    0 ≤ snakeC.length + snakeC.rattles ∧
    (((snakeC.update sampleGame 1 noResample).1.body.length : Int)
      = (snakeC.update sampleGame 1 noResample).1.length
        + (snakeC.update sampleGame 1 noResample).1.rattles) :=
  ⟨by decide, by decide, by decide,
    c1_move_length_invariant snakeC sampleGame 1 noResample
      (by decide) (by decide) (by decide)⟩

/-- C10: a newly constructed snake has a single-segment body (its head
position) while `length = 3` and `rattles = 0`, so `len(body) <
length + rattles` at construction; and neither the tail-trim loop nor a
move can make up more than one segment per tick (`trimTail` never
lengthens, and a move adds exactly one head segment before trimming). -/
theorem c10_initial_body (x y : Int) (dir : Pos) :
    (Snake.init x y dir).body = [(x, y)] ∧
    (Snake.init x y dir).length = 3 ∧
    (Snake.init x y dir).rattles = 0 ∧
    (((Snake.init x y dir).body.length : Int)
      < (Snake.init x y dir).length + (Snake.init x y dir).rattles) ∧
    (∀ (body : List Pos) (t : Int), (trimTail body t).length ≤ body.length) ∧
    (∀ (s : Snake) (g : Game) (dt : ℚ) (r : SnakeRand),
      (s.update g dt r).1.body.length ≤ s.body.length + 1) := by
  refine ⟨rfl, rfl, rfl, by simp [Snake.init], trimTail_length_le, ?_⟩
  intro s g dt r
  by_cases hmv : s.time_to_move - dt ≤ 0
  · unfold Snake.update
    simp only [hmv, if_true, if_pos]
    exact Nat.le_trans (trimTail_length_le _ _) (by simp)
  · unfold Snake.update
    rw [if_neg hmv]
    exact Nat.le_succ _

/-! ### Lemmas: the manager never changes the population size outside
`try_spawn_snake` -/

theorem updateSnakes_length (dt : ℚ) (rands : Nat → SnakeRand) :
    ∀ (l : List Snake) (g : Game) (idx : Nat),
      (updateSnakes dt rands l g idx).1.length = l.length
  | [], _, _ => rfl
  | _ :: rest, g, idx => by
    simp only [updateSnakes, List.length_cons]
    rw [updateSnakes_length dt rands rest _ (idx + 1)]

theorem doBite_length (snakes : List Snake) (g : Game) (i j : Nat) :
    (doBite snakes g i j).1.length = snakes.length := by
  unfold doBite
  split
  · simp [List.length_set]
  · rfl

theorem collideWith_length (i : Nat) (head1 : Pos)
    (st : List Snake × Game) (j : Nat) :
    (collideWith i head1 st j).1.length = st.1.length := by
  unfold collideWith
  split_ifs with h
  · rfl
  · split
    · rfl
    · split_ifs
      · rfl
      · exact doBite_length _ _ _ _
      · rfl

/-- A fold whose step preserves the length of the snake list preserves
it overall. -/
theorem foldl_fst_length {f : List Snake × Game → Nat → List Snake × Game}
    (hf : ∀ st j, (f st j).1.length = st.1.length) :
    ∀ (l : List Nat) (st : List Snake × Game),
      ((l.foldl f st).1.length = st.1.length)
  | [], _ => rfl
  | j :: rest, st => by
    rw [List.foldl_cons, foldl_fst_length hf rest _, hf]

theorem collideAttacker_length (st : List Snake × Game) (i : Nat) :
    (collideAttacker st i).1.length = st.1.length := by
  unfold collideAttacker
  split
  · rfl
  · split_ifs
    · rfl
    · exact foldl_fst_length (collideWith_length _ _) _ _

theorem checkSnakeCollisions_length (snakes : List Snake) (g : Game) :
    (checkSnakeCollisions snakes g).1.length = snakes.length :=
  foldl_fst_length collideAttacker_length _ _

/-- `try_spawn_snake` keeps the population within the cap. -/
theorem trySpawnSnake_length (p : SnakePlugin) (g : Game)
    (offsets : Nat → Pos) (dir0 : Pos)
    (hmax : p.max_snakes = 5) (hlen : p.snakes.length ≤ 5) :
    (trySpawnSnake p g offsets dir0).1.snakes.length ≤ 5 := by
  unfold trySpawnSnake
  split_ifs with h
  · exact hlen
  · rw [hmax] at h
    split
    · simp only [List.length_append, List.length_cons, List.length_nil]
      omega
    · exact hlen

/-- All trials in a fuel window failing the plant test make the spawn
scan return `none`. -/
theorem findSpawnOffset_none (g : Game) (offsets : Nat → Pos) :
    ∀ (fuel k : Nat),
      (∀ m, k ≤ m → m < k + fuel →
        isPlantAt (g.world_x + (offsets m).1) (g.world_y + (offsets m).2)
          = false) →
      findSpawnOffset g offsets k fuel = none
  | 0, _, _ => rfl
  | fuel + 1, k, h => by
    unfold findSpawnOffset
    rw [h k (Nat.le_refl _) (by omega)]
    simp only [Bool.false_eq_true, if_false]
    exact findSpawnOffset_none g offsets fuel (k + 1)
      (fun m h1 h2 => h m (by omega) (by omega))

/-! ### Claims about the population manager -/

/-- C7: while the plugin is inactive, `update` changes nothing at all:
it returns the plugin state and the game state untouched (no snake
moves, no collision is resolved, `spawn_timer` is not decremented, and
the external game fields are not written). -/
theorem c7_inactive_noop (p : SnakePlugin) (g : Game) (dt : ℚ)
    (rands : Nat → SnakeRand) (offsets : Nat → Pos) (dir0 : Pos)
    (h : p.active = false) :
    SnakePlugin.update p g dt rands offsets dir0 = (p, g) := by
  unfold SnakePlugin.update
  rw [h]
  simp

theorem c7_inactive_noop_witness :
    inactivePlugin.active = false ∧
    SnakePlugin.update inactivePlugin sampleGame 1 (fun _ => noResample)
      (fun _ => (0, 0)) (0, 1) = (inactivePlugin, sampleGame) :=
  ⟨rfl, c7_inactive_noop inactivePlugin sampleGame 1 (fun _ => noResample)
    (fun _ => (0, 0)) (0, 1) rfl⟩

/-- C5: at or above the cap, `try_spawn_snake` fails and changes
nothing; and one manager `update` keeps the population within the cap
of 5 (movement and collisions never change the population size, and the
spawn attempt adds at most one snake, only below the cap). -/
theorem c5_population_cap (p : SnakePlugin) (g : Game) (dt : ℚ)
    (rands : Nat → SnakeRand) (offsets : Nat → Pos) (dir0 : Pos)
    (hmax : p.max_snakes = 5) (hlen : p.snakes.length ≤ 5) :
    (p.snakes.length ≥ p.max_snakes →
      trySpawnSnake p g offsets dir0 = (p, false)) ∧
    (SnakePlugin.update p g dt rands offsets dir0).1.snakes.length ≤ 5 := by
  constructor
  · intro hge
    unfold trySpawnSnake
    rw [if_pos hge]
  · unfold SnakePlugin.update
    by_cases hact : p.active = true
    · rw [if_pos hact]
      by_cases ht : p.spawn_timer - dt ≤ 0
      · simp only [ht, if_true]
        refine trySpawnSnake_length _ _ _ _ hmax ?_
        show (checkSnakeCollisions
          (updateSnakes dt rands p.snakes g 0).1
          (updateSnakes dt rands p.snakes g 0).2).1.length ≤ 5
        rw [checkSnakeCollisions_length, updateSnakes_length]
        exact hlen
      · simp only [ht, if_false]
        show (checkSnakeCollisions
          (updateSnakes dt rands p.snakes g 0).1
          (updateSnakes dt rands p.snakes g 0).2).1.length ≤ 5
        rw [checkSnakeCollisions_length, updateSnakes_length]
        exact hlen
    · rw [if_neg hact]
      exact hlen

theorem c5_population_cap_witness :
    fullPlugin.max_snakes = 5 ∧ fullPlugin.snakes.length ≤ 5 ∧
    ((fullPlugin.snakes.length ≥ fullPlugin.max_snakes →
      trySpawnSnake fullPlugin sampleGame (fun _ => (0, 0)) (0, 1)
        = (fullPlugin, false)) ∧
    (SnakePlugin.update fullPlugin sampleGame 1 (fun _ => noResample)
      (fun _ => (0, 0)) (0, 1)).1.snakes.length ≤ 5) :=
  ⟨rfl, by decide,
    c5_population_cap fullPlugin sampleGame 1 (fun _ => noResample)
      (fun _ => (0, 0)) (0, 1) rfl (by decide)⟩

/-- C6: below the cap, if none of the 10 trial coordinates carries the
plant marker, `try_spawn_snake` reports failure and adds no snake. -/
theorem c6_spawn_all_trials_fail (p : SnakePlugin) (g : Game)
    (offsets : Nat → Pos) (dir0 : Pos)
    (hcap : p.snakes.length < p.max_snakes)
    (hfail : ∀ k, k < 10 →
      isPlantAt (g.world_x + (offsets k).1) (g.world_y + (offsets k).2)
        = false) :
    trySpawnSnake p g offsets dir0 = (p, false) := by
  unfold trySpawnSnake
  rw [if_neg (by omega)]
  rw [findSpawnOffset_none g offsets 10 0 (fun m _ h2 => hfail m (by omega))]

theorem c6_spawn_all_trials_fail_witness :
    SnakePlugin.init.snakes.length < SnakePlugin.init.max_snakes ∧
    (∀ k, k < 10 →
      isPlantAt (sampleGame.world_x + ((fun _ => ((0 : Int), (0 : Int))) k).1)
        (sampleGame.world_y + ((fun _ => ((0 : Int), (0 : Int))) k).2)
        = false) ∧
    trySpawnSnake SnakePlugin.init sampleGame (fun _ => (0, 0)) (0, 1)
      = (SnakePlugin.init, false) :=
  ⟨by decide, by decide,
    c6_spawn_all_trials_fail SnakePlugin.init sampleGame (fun _ => (0, 0))
      (0, 1) (by decide) (by decide)⟩

/-- C8: in a single collision pass over exactly the two snakes `A` and
`B`, if each head lies on a non-head segment of the other and both
bodies have more than 3 segments, both ordered pairs are resolved: the
first bite `A.bite(B)` returns success, the second bite (by the
already-bitten `B` against the rattle-augmented `A`) returns success,
and the final state shows both snakes having lost their middle segment,
one length each, and gained two rattles each. -/
theorem c8_mutual_bite (A B : Snake) (g : Game)
    (hA : 3 < A.body.length) (hB : 3 < B.body.length)
    (hAB : A.body.headD (0, 0) ∈ B.body.tail)
    (hBA : B.body.headD (0, 0) ∈ A.body.tail) :
    (A.bite B g).2.2.2 = true ∧
    ((A.bite B g).2.1.bite (A.bite B g).1 (A.bite B g).2.2.1).2.2.2
      = true ∧
    checkSnakeCollisions [A, B] g =
      ([{ A with rattles := A.rattles + 2,
                 body := A.body.eraseIdx (A.body.length / 2),
                 length := A.length - 1 },
        { B with rattles := B.rattles + 2,
                 body := B.body.eraseIdx (B.body.length / 2),
                 length := B.length - 1 }],
       { g with
         message := "Snake bite! One snake lost a segment, another gained rattles.",
         message_timeout := 2 }) := by
  have hbite1 := bite_long A B g hB
  have hbite2 := bite_long
    { B with body := B.body.eraseIdx (B.body.length / 2),
             length := B.length - 1 }
    { A with rattles := A.rattles + 2 }
    { g with
      message := "Snake bite! One snake lost a segment, another gained rattles.",
      message_timeout := 2 }
    (by exact hA)
  have h2B : 0 < B.body.length / 2 := by omega
  have hhd : (B.body.eraseIdx (B.body.length / 2)).headD (0, 0)
      = B.body.headD (0, 0) := headD_eraseIdx_of_pos _ _ _ h2B
  have hAB' : A.body.head?.getD 0 ∈ B.body.tail := by simpa using hAB
  have hBA' : B.body.head?.getD 0 ∈ A.body.tail := by simpa using hBA
  have hhd' : (B.body.eraseIdx (B.body.length / 2)).head?.getD (0 : Pos)
      = B.body.head?.getD 0 := by simpa using hhd
  have hB1len : (B.body.eraseIdx (B.body.length / 2)).length
      = B.body.length - 1 :=
    List.length_eraseIdx_of_lt (by omega)
  have hA0 : ¬(A.body.length = 0) := by omega
  have hB10 : ¬(B.body.length - 1 = 0) := by omega
  have hAlt : ¬(A.body.length < 2) := by omega
  have hBlt : ¬(B.body.length < 2) := by omega
  have hr : List.range 2 = [0, 1] := rfl
  refine ⟨by rw [hbite1], by simp only [hbite1]; rw [hbite2], ?_⟩
  have step1 : collideAttacker ([A, B], g) 0 =
      ([{ A with rattles := A.rattles + 2 },
        { B with body := B.body.eraseIdx (B.body.length / 2),
                 length := B.length - 1 }],
       { g with
         message := "Snake bite! One snake lost a segment, another gained rattles.",
         message_timeout := 2 }) := by
    unfold collideAttacker collideWith doBite
    simp [hbite1, hA0, hAB', hBlt, hr]
  have step2 : collideAttacker
      (([{ A with rattles := A.rattles + 2 },
         { B with body := B.body.eraseIdx (B.body.length / 2),
                  length := B.length - 1 }],
        { g with
          message := "Snake bite! One snake lost a segment, another gained rattles.",
          message_timeout := 2 }) : List Snake × Game) 1 =
      ([{ A with rattles := A.rattles + 2,
                 body := A.body.eraseIdx (A.body.length / 2),
                 length := A.length - 1 },
        { B with rattles := B.rattles + 2,
                 body := B.body.eraseIdx (B.body.length / 2),
                 length := B.length - 1 }],
       { g with
         message := "Snake bite! One snake lost a segment, another gained rattles.",
         message_timeout := 2 }) := by
    unfold collideAttacker collideWith doBite
    simp [hbite2, hhd', hB1len, hB10, hAlt, hBA', hr]
  show (List.range ([A, B] : List Snake).length).foldl collideAttacker
      ([A, B], g) = _
  simp only [List.length_cons, List.length_nil, Nat.zero_add, hr,
    List.foldl_cons, List.foldl_nil]
  rw [step1, step2]

theorem c8_mutual_bite_witness :
    3 < snakeA.body.length ∧ 3 < snakeB.body.length ∧
    snakeA.body.headD (0, 0) ∈ snakeB.body.tail ∧
    snakeB.body.headD (0, 0) ∈ snakeA.body.tail ∧
    ((snakeA.bite snakeB sampleGame).2.2.2 = true ∧
    ((snakeA.bite snakeB sampleGame).2.1.bite (snakeA.bite snakeB sampleGame).1
        (snakeA.bite snakeB sampleGame).2.2.1).2.2.2 = true ∧
    checkSnakeCollisions [snakeA, snakeB] sampleGame =
      ([{ snakeA with rattles := snakeA.rattles + 2,
                      body := snakeA.body.eraseIdx (snakeA.body.length / 2),
                      length := snakeA.length - 1 },
        { snakeB with rattles := snakeB.rattles + 2,
                      body := snakeB.body.eraseIdx (snakeB.body.length / 2),
                      length := snakeB.length - 1 }],
       { sampleGame with
         message := "Snake bite! One snake lost a segment, another gained rattles.",
         message_timeout := 2 })) :=
  ⟨by decide, by decide, by decide, by decide,
    c8_mutual_bite snakeA snakeB sampleGame (by decide) (by decide)
      (by decide) (by decide)⟩

theorem c9_bite_index_safe_witness :
    3 < snakeB.body.length ∧
    (0 < snakeB.body.length / 2 ∧
    snakeB.body.length / 2 < snakeB.body.length ∧
    (snakeA.bite snakeB sampleGame).2.1.body.length + 1 = snakeB.body.length ∧
    (snakeA.bite snakeB sampleGame).2.1.body.head? = snakeB.body.head?) :=
  ⟨by decide, c9_bite_index_safe snakeA snakeB sampleGame (by decide)⟩

end SnakeGame
